import Mathlib

/-!
# Verification of the NebulaVRF core (`vrf-core`)

A shallow embedding of the repository's core: the SHA-256 hash wrapper
(`src/utils/hash.rs`), the BLS-signature based VRF (`src/vrf/bls.rs`), the
commit/reveal scheme (`src/vrf/commit.rs`), the test-payload generator
(`src/helpers.rs`) and the `/verify-commit` HTTP handler
(`api/handlers/mod.rs`).

Bytes are modelled as `List Nat` with every element understood modulo 256.
SHA-256 is implemented concretely (FIPS 180-4, operating on byte lists).
The BLS12-381 pairing-curve operations are a trusted black box in the source
(the `blst` crate), so they are modelled as an abstract operation record
`BLS`; theorems that depend on properties of the curve library (round-trip
of serialisation, signatures verifying against the matching public key,
key generation succeeding on 32-byte input key material, fixed
serialisation sizes) take those properties as explicit hypotheses.
-/

namespace NebulaVRF

/-! ## SHA-256 (`src/src/utils/hash.rs`, the `sha2` crate's `Sha256::digest`) -/

/-- Truncate to a 32-bit word. -/
def w32 (x : Nat) : Nat := x % 4294967296

/-- Right rotation of a 32-bit word. -/
def rotr32 (n x : Nat) : Nat := (x >>> n) ||| (w32 (x <<< (32 - n)))

/-- SHA-256 σ₀. -/
def sigmaLo0 (x : Nat) : Nat := (rotr32 7 x) ^^^ (rotr32 18 x) ^^^ (x >>> 3)

/-- SHA-256 σ₁. -/
def sigmaLo1 (x : Nat) : Nat := (rotr32 17 x) ^^^ (rotr32 19 x) ^^^ (x >>> 10)

/-- SHA-256 Σ₀. -/
def sigmaHi0 (x : Nat) : Nat := (rotr32 2 x) ^^^ (rotr32 13 x) ^^^ (rotr32 22 x)

/-- SHA-256 Σ₁. -/
def sigmaHi1 (x : Nat) : Nat := (rotr32 6 x) ^^^ (rotr32 11 x) ^^^ (rotr32 25 x)

/-- SHA-256 choice function. -/
def chF (x y z : Nat) : Nat := (x &&& y) ^^^ ((x ^^^ 4294967295) &&& z)

/-- SHA-256 majority function. -/
def majF (x y z : Nat) : Nat := (x &&& y) ^^^ (x &&& z) ^^^ (y &&& z)

/-- The 64 SHA-256 round constants. -/
def sha256K : List Nat :=
  [1116352408, 1899447441, 3049323471, 3921009573,
   961987163, 1508970993, 2453635748, 2870763221,
   3624381080, 310598401, 607225278, 1426881987,
   1925078388, 2162078206, 2614888103, 3248222580,
   3835390401, 4022224774, 264347078, 604807628,
   770255983, 1249150122, 1555081692, 1996064986,
   2554220882, 2821834349, 2952996808, 3210313671,
   3336571891, 3584528711, 113926993, 338241895,
   666307205, 773529912, 1294757372, 1396182291,
   1695183700, 1986661051, 2177026350, 2456956037,
   2730485921, 2820302411, 3259730800, 3345764771,
   3516065817, 3600352804, 4094571909, 275423344,
   430227734, 506948616, 659060556, 883997877,
   958139571, 1322822218, 1537002063, 1747873779,
   1955562222, 2024104815, 2227730452, 2361852424,
   2428436474, 2756734187, 3204031479, 3329325298]

/-- The eight 32-bit words of a SHA-256 chaining state. -/
structure SHAState where
  a : Nat
  b : Nat
  c : Nat
  d : Nat
  e : Nat
  f : Nat
  g : Nat
  h : Nat

/-- The SHA-256 initial hash value. -/
def shaInit : SHAState :=
  ⟨1779033703, 3144134277, 1013904242, 2773480762,
   1359893119, 2600822924, 528734635, 1541459225⟩

/-- Extend a 16-word message block by `k` schedule words. -/
def extendSchedule (ws : List Nat) : Nat → List Nat
  | 0 => ws
  | k + 1 =>
    let prev := extendSchedule ws k
    let n := prev.length
    let nw := w32 (sigmaLo1 (prev.getD (n - 2) 0) + prev.getD (n - 7) 0 +
                   sigmaLo0 (prev.getD (n - 15) 0) + prev.getD (n - 16) 0)
    prev ++ [nw]

/-- One SHA-256 compression round with round constant `ki` and schedule word
`wi`. -/
def shaRound (st : SHAState) (ki wi : Nat) : SHAState :=
  let t1 := w32 (st.h + sigmaHi1 st.e + chF st.e st.f st.g + ki + wi)
  let t2 := w32 (sigmaHi0 st.a + majF st.a st.b st.c)
  ⟨w32 (t1 + t2), st.a, st.b, st.c, w32 (st.d + t1), st.e, st.f, st.g⟩

/-- Compress one 16-word message block into the chaining state. -/
def compressBlock (st : SHAState) (block : List Nat) : SHAState :=
  let ws := extendSchedule block 48
  let fin := (sha256K.zip ws).foldl (fun s kw => shaRound s kw.1 kw.2) st
  ⟨w32 (st.a + fin.a), w32 (st.b + fin.b), w32 (st.c + fin.c),
   w32 (st.d + fin.d), w32 (st.e + fin.e), w32 (st.f + fin.f),
   w32 (st.g + fin.g), w32 (st.h + fin.h)⟩

/-- The 8-byte big-endian encoding of a (64-bit) length value. -/
def lenBytes64 (n : Nat) : List Nat :=
  [n >>> 56 % 256, n >>> 48 % 256, n >>> 40 % 256, n >>> 32 % 256,
   n >>> 24 % 256, n >>> 16 % 256, n >>> 8 % 256, n % 256]

/-- SHA-256 padding: append `0x80`, zero bytes up to 56 mod 64, then the
bit length as a 64-bit big-endian integer. -/
def padMessage (msg : List Nat) : List Nat :=
  let padZeros := (119 - msg.length % 64) % 64
  msg ++ [128] ++ List.replicate padZeros 0 ++ lenBytes64 (msg.length * 8)

/-- Group a byte list into big-endian 32-bit words (four bytes per word). -/
def toWords : List Nat → List Nat
  | b0 :: b1 :: b2 :: b3 :: rest =>
    (b0 <<< 24 + b1 <<< 16 + b2 <<< 8 + b3) :: toWords rest
  | _ => []

/-- Split a word list into 16-word blocks. -/
def toBlocks : List Nat → List (List Nat)
  | [] => []
  | w :: ws => ((w :: ws).take 16) :: toBlocks ((w :: ws).drop 16)
  termination_by ws => ws.length
  decreasing_by simp [List.length_drop]; omega

/-- The four big-endian bytes of a 32-bit word. -/
def wordBytes (wv : Nat) : List Nat :=
  [wv >>> 24 % 256, wv >>> 16 % 256, wv >>> 8 % 256, wv % 256]

/-- SHA-256 of a byte list: the embedding of `sha256` in
`src/src/utils/hash.rs` (which delegates to `sha2::Sha256::digest`). -/
def sha256 (input : List Nat) : List Nat :=
  let st := (toBlocks (toWords (padMessage input))).foldl compressBlock shaInit
  wordBytes st.a ++ wordBytes st.b ++ wordBytes st.c ++ wordBytes st.d ++
  wordBytes st.e ++ wordBytes st.f ++ wordBytes st.g ++ wordBytes st.h

/-! ## Domain-separation tags (ASCII bytes of the Rust `b"..."` literals) -/

/-- The domain-separation tag literal in `generate_random`
(`src/src/vrf/bls.rs` line 15): the bytes of
`BLS_SIG_BLS12381G2_XMD:SHA-256_SSWU_RO_NUL_`. -/
def generateDst : List Nat :=
  [ 66, 76, 83, 95, 83, 73, 71, 95, 66, 76, 83, 49, 50, 51, 56, 49, 71, 50,
    95, 88, 77, 68, 58, 83, 72, 65, 45, 50, 53, 54, 95, 83, 83, 87, 85, 95,
    82, 79, 95, 78, 85, 76, 95]

/-- The domain-separation tag literal in `verify_proof`
(`src/src/vrf/bls.rs` line 43): the bytes of
`BLS_SIG_BLS12381G2_XMD:SHA-256_SSWU_RO_NUL_`. -/
def verifyDst : List Nat :=
  [ 66, 76, 83, 95, 83, 73, 71, 95, 66, 76, 83, 49, 50, 51, 56, 49, 71, 50,
    95, 88, 77, 68, 58, 83, 72, 65, 45, 50, 53, 54, 95, 83, 83, 87, 85, 95,
    82, 79, 95, 78, 85, 76, 95]

/-- The Soroban contract's domain-separation tag (`src/src/helpers.rs`):
the bytes of `NEBULA-VRF-V01-BLS12381G2`. -/
def SOROBAN_DST : List Nat :=
  [ 78, 69, 66, 85, 76, 65, 45, 86, 82, 70, 45, 86, 48, 49, 45, 66, 76, 83,
    49, 50, 51, 56, 49, 71, 50]

/-- `src/src/helpers.rs`: expected G1 public-key size. -/
def SOROBAN_G1_PUBKEY_SIZE : Nat := 96

/-- `src/src/helpers.rs`: expected G2 signature size. -/
def SOROBAN_G2_SIGNATURE_SIZE : Nat := 192

/-! ## The abstract BLS12-381 operation record

The source calls into the `blst` crate, which the specification treats as a
trusted black box. Secret keys, public keys and signatures are abstract
handles, modelled as `List Nat`. The record carries both modes the source
uses: `min_sig` (signatures in G1, public keys in G2 — `src/src/vrf/bls.rs`)
and `min_pk` (public keys in G1, signatures in G2 — `src/src/helpers.rs`),
the latter's fields carrying a `pk` prefix. -/

structure BLS where
  /-- `min_sig::SecretKey::key_gen(ikm, key_info)`: `none` models `Err`. -/
  keyGen : List Nat → List Nat → Option (List Nat)
  /-- `sk.sign(msg, dst, aug)`. -/
  sign : List Nat → List Nat → List Nat → List Nat → List Nat
  /-- `sk.sk_to_pk()`. -/
  skToPk : List Nat → List Nat
  /-- `signature.to_bytes()` (compressed G1, 48 bytes). -/
  sigToBytes : List Nat → List Nat
  /-- `pk.to_bytes()` (compressed G2, 96 bytes). -/
  pkToBytes : List Nat → List Nat
  /-- `PublicKey::from_bytes`: `none` models `Err`. -/
  pkFromBytes : List Nat → Option (List Nat)
  /-- `Signature::from_bytes`: `none` models `Err`. -/
  sigFromBytes : List Nat → Option (List Nat)
  /-- `sig.verify(true, msg, dst, aug, pk, true) == BLST_SUCCESS`. -/
  sigVerify : List Nat → List Nat → List Nat → List Nat → List Nat → Bool
  /-- `min_pk::SecretKey::key_gen(ikm, key_info)`. -/
  pkKeyGen : List Nat → List Nat → Option (List Nat)
  /-- `min_pk` mode `sk.sign(msg, dst, aug)`. -/
  pkSign : List Nat → List Nat → List Nat → List Nat → List Nat
  /-- `min_pk` mode `sk.sk_to_pk()`. -/
  pkSkToPk : List Nat → List Nat
  /-- `min_pk` mode `pk.serialize()` (uncompressed G1, 96 bytes). -/
  pkPkSerialize : List Nat → List Nat
  /-- `min_pk` mode `signature.serialize()` (uncompressed G2, 192 bytes). -/
  pkSigSerialize : List Nat → List Nat

/-! ## `src/src/vrf/types.rs` -/

/-- The VRF error taxonomy. -/
inductive VRFError where
  | InvalidSignature
  | InvalidPublicKey
  | InvalidCommitment
  | DeserializationError
  | VerificationFailed
deriving DecidableEq, Repr

/-- The VRF response bundle: output (signature bytes) and public key bytes. -/
structure VRFProof where
  output : List Nat
  public_key : List Nat
deriving DecidableEq, Repr

/-! ## `src/src/vrf/bls.rs` -/

/-- Embedding of `generate_random`. -/
def generate_random (B : BLS) (seed : List Nat) : Except VRFError VRFProof :=
  let dst := generateDst
  let ikm := sha256 seed
  match B.keyGen ikm [] with
  | none => .error .DeserializationError
  | some sk =>
    let signature := B.sign sk seed dst []
    let pk := B.skToPk sk
    .ok { output := B.sigToBytes signature, public_key := B.pkToBytes pk }

/-- Embedding of `verify_proof`. -/
def verify_proof (B : BLS) (seed signature_bytes public_key_bytes : List Nat) :
    Except VRFError Unit :=
  let dst := verifyDst
  match B.pkFromBytes public_key_bytes with
  | none => .error .InvalidPublicKey
  | some pk =>
    match B.sigFromBytes signature_bytes with
    | none => .error .InvalidSignature
    | some sig =>
      if B.sigVerify sig seed dst [] pk then .ok () else .error .VerificationFailed

/-! ## `src/src/vrf/commit.rs` -/

/-- Embedding of `commit`: the SHA-256 hash of the seed. -/
def commit (seed : List Nat) : List Nat := sha256 seed

/-- Embedding of `verify_commit`: the seed hashes to the commitment. -/
def verify_commit (seed commitment : List Nat) : Bool := commit seed == commitment

/-! ## `src/src/helpers.rs` -/

/-- The error message `from_seed_salt` returns when key generation fails. -/
def keyGenFailureMsg : String :=
  "Failed to generate BLS secret key"

/-- The payload aggregate built by the payload generator. -/
structure SamplePayload where
  seed : List Nat
  salt : List Nat
  commitment : List Nat
  pubkey : List Nat
  secret_key : List Nat
  signature : List Nat
deriving Repr

/-- Embedding of `SamplePayload::from_seed_salt`. -/
def SamplePayload.from_seed_salt (B : BLS) (seed salt : List Nat) :
    Except String SamplePayload :=
  let combined := seed ++ salt
  let commitment := sha256 combined
  let ikm := commitment
  match B.pkKeyGen ikm [] with
  | none => .error keyGenFailureMsg
  | some secret_key =>
    let pubkey := B.pkSkToPk secret_key
    let pubkey_bytes := B.pkPkSerialize pubkey
    let signature := B.pkSign secret_key commitment SOROBAN_DST []
    let signature_bytes := B.pkSigSerialize signature
    .ok { seed := seed, salt := salt, commitment := commitment,
          pubkey := pubkey_bytes, secret_key := secret_key,
          signature := signature_bytes }

/-- Embedding of `SamplePayload::verify`: the source skips verification and
returns `Ok(())` unconditionally. -/
def SamplePayload.verify (_p : SamplePayload) : Except String Unit :=
  Except.ok ()

/-! ## `src/api/handlers/mod.rs`: the `/verify-commit` handler -/

/-- The value of one hexadecimal digit character. -/
def hexDigitVal (c : Char) : Option Nat :=
  if '0' ≤ c ∧ c ≤ '9' then some (c.toNat - 48)
  else if 'a' ≤ c ∧ c ≤ 'f' then some (c.toNat - 87)
  else if 'A' ≤ c ∧ c ≤ 'F' then some (c.toNat - 55)
  else none

/-- Rust `hex::decode`: pairs of hex digits; odd length or a non-hex
character is an error. -/
def hexDecode : List Char → Option (List Nat)
  | [] => some []
  | [_] => none
  | hc :: lc :: rest =>
    match hexDigitVal hc, hexDigitVal lc, hexDecode rest with
    | some hi, some lo, some tail => some ((hi * 16 + lo) :: tail)
    | _, _, _ => none

/-- Embedding of `verify_commit_handler`'s `valid` computation: the seed hex
decodes with `unwrap_or_default` (empty bytes on failure); the commitment
buffer starts as 32 zero bytes and is overwritten only when the commitment
hex decodes to exactly 32 bytes. -/
def verify_commit_handler (seed_hex commitment_hex : List Char) : Bool :=
  let seed := (hexDecode seed_hex).getD []
  let commitment_bytes :=
    match hexDecode commitment_hex with
    | some bytes => if bytes.length = 32 then bytes else List.replicate 32 0
    | none => List.replicate 32 0
  verify_commit seed commitment_bytes

/-! ## Concrete models of the abstract curve operations

Small executable instantiations satisfying the black-box properties the
theorems assume; they let theorems with hypotheses be exercised on
concrete inputs. `blsFree` parses any byte string back into a handle;
`blsStrict` rejects byte strings of the wrong length, exercising the
error paths. -/

/-- A model where handles serialize to themselves and a signature verifies
exactly when it equals the public key followed by message, tag and
augmentation. -/
def blsFree : BLS where
  keyGen := fun ikm _ => some ikm
  sign := fun sk msg dst aug => sk ++ msg ++ dst ++ aug
  skToPk := fun sk => sk
  sigToBytes := fun s => s
  pkToBytes := fun p => p
  pkFromBytes := fun bs => some bs
  sigFromBytes := fun bs => some bs
  sigVerify := fun sig msg dst aug pk => sig == pk ++ msg ++ dst ++ aug
  pkKeyGen := fun ikm _ => some ikm
  pkSign := fun sk msg dst aug => sk ++ msg ++ dst ++ aug
  pkSkToPk := fun sk => sk
  pkPkSerialize := fun _ => List.replicate 96 0
  pkSigSerialize := fun _ => List.replicate 192 0

/-- A model whose parsers reject byte strings of the wrong length
(48-byte `min_sig` signatures, 96-byte `min_sig` public keys). -/
def blsStrict : BLS where
  keyGen := fun ikm _ => some ikm
  sign := fun sk msg dst aug => sk ++ msg ++ dst ++ aug
  skToPk := fun sk => sk
  sigToBytes := fun s => s
  pkToBytes := fun p => p
  pkFromBytes := fun bs => if bs.length = 96 then some bs else none
  sigFromBytes := fun bs => if bs.length = 48 then some bs else none
  sigVerify := fun sig msg dst aug pk => sig == pk ++ msg ++ dst ++ aug
  pkKeyGen := fun ikm _ => some ikm
  pkSign := fun sk msg dst aug => sk ++ msg ++ dst ++ aug
  pkSkToPk := fun sk => sk
  pkPkSerialize := fun _ => List.replicate 96 0
  pkSigSerialize := fun _ => List.replicate 192 0

/-! ## Basic facts about the hash -/

/-- SHA-256 always produces exactly 32 bytes. -/
theorem sha256_length (input : List Nat) : (sha256 input).length = 32 := by
  simp [sha256, wordBytes]

/-- The proof bundle `generate_random blsFree []` produces. -/
def emptySeedProof : VRFProof :=
  { output := sha256 [] ++ [] ++ generateDst ++ [],
    public_key := sha256 [] }

/-! ## Claim theorems -/

/-- C3: `generate_random` computes `ikm = sha256(seed)`, derives the secret
key deterministically from that ikm, signs the seed itself (not its hash)
under the fixed domain-separation tag, derives the public key from the
secret key, and returns the signature bytes as `output` and the public-key
bytes as `public_key`. -/
theorem generate_random_pipeline (B : BLS) (seed sk : List Nat)
    (hkg : B.keyGen (sha256 seed) [] = some sk) :
    generate_random B seed =
      Except.ok { output := B.sigToBytes (B.sign sk seed generateDst []),
                  public_key := B.pkToBytes (B.skToPk sk) } := by
  simp [generate_random, hkg]

/-- Witness for C3 at the empty seed and the free model. -/
theorem generate_random_pipeline_witness :
    blsFree.keyGen (sha256 []) [] = some (sha256 []) ∧
    generate_random blsFree [] =
      Except.ok { output := blsFree.sigToBytes (blsFree.sign (sha256 []) [] generateDst []),
                  public_key := blsFree.pkToBytes (blsFree.skToPk (sha256 [])) } :=
  ⟨rfl, generate_random_pipeline blsFree [] (sha256 []) rfl⟩

/-- C1: whenever `generate_random seed` returns a proof, `verify_proof` on
that seed, output and public key returns `Ok` — assuming the curve
library's serialisation round-trips and a signature verifies against the
matching public key (the `blst` black box). -/
theorem generate_then_verify_ok (B : BLS) (seed : List Nat) (p : VRFProof)
    (hpk : ∀ sk, B.pkFromBytes (B.pkToBytes (B.skToPk sk)) = some (B.skToPk sk))
    (hsig : ∀ sk msg dst aug,
      B.sigFromBytes (B.sigToBytes (B.sign sk msg dst aug)) = some (B.sign sk msg dst aug))
    (hver : ∀ sk msg dst aug,
      B.sigVerify (B.sign sk msg dst aug) msg dst aug (B.skToPk sk) = true)
    (hgen : generate_random B seed = Except.ok p) :
    verify_proof B seed p.output p.public_key = Except.ok () := by
  simp only [generate_random] at hgen
  cases hkg : B.keyGen (sha256 seed) [] with
  | none => rw [hkg] at hgen; cases hgen
  | some sk =>
    rw [hkg] at hgen
    cases hgen
    have hdst : verifyDst = generateDst := rfl
    simp [verify_proof, hpk, hsig, hdst, hver]

/-- Witness for C1 at the empty seed and the free model. -/
theorem generate_then_verify_ok_witness :
    generate_random blsFree [] = Except.ok emptySeedProof ∧
    verify_proof blsFree [] emptySeedProof.output emptySeedProof.public_key =
      Except.ok () :=
  ⟨rfl,
   generate_then_verify_ok blsFree [] emptySeedProof
     (fun _ => rfl) (fun _ _ _ _ => rfl)
     (fun sk msg dst aug => by simp [blsFree]) rfl⟩

/-- C2 counterexample: the domain-separation tag used by `generate_random`
(and `verify_proof`) is NOT the byte constant `SOROBAN_DST` that the
payload generator signs under. -/
theorem dst_not_shared : ¬ (generateDst = SOROBAN_DST ∧ verifyDst = SOROBAN_DST) := by
  decide

/-- C2 amended: `generate_random` and `verify_proof` share one
domain-separation tag constant, but it differs from the `SOROBAN_DST`
constant the payload generator uses when signing the commitment. -/
theorem dst_constants :
    generateDst = verifyDst ∧ generateDst ≠ SOROBAN_DST ∧ verifyDst ≠ SOROBAN_DST := by
  decide

/-- C7: `generate_random` is deterministic — two calls on the same seed
that return proofs return byte-identical output and public key (the
embedding consumes no randomness: the result is a function of the seed). -/
theorem generate_random_deterministic (B : BLS) (seed : List Nat) (p1 p2 : VRFProof)
    (h1 : generate_random B seed = Except.ok p1)
    (h2 : generate_random B seed = Except.ok p2) :
    p1.output = p2.output ∧ p1.public_key = p2.public_key := by
  rw [h1] at h2
  cases h2
  exact ⟨rfl, rfl⟩

/-- Witness for C7 at the empty seed and the free model. -/
theorem generate_random_deterministic_witness :
    emptySeedProof.output = emptySeedProof.output ∧
    emptySeedProof.public_key = emptySeedProof.public_key :=
  generate_random_deterministic blsFree [] emptySeedProof emptySeedProof rfl rfl

/-- C9: `generate_random` never returns an error: `sha256` always produces
exactly 32 bytes of input key material, which meets the minimum length BLS
key generation requires (the hypothesis on the black box), so the
`DeserializationError` branch is unreachable. -/
theorem generate_random_total (B : BLS) (seed : List Nat)
    (hkg : ∀ ikm info, 32 ≤ ikm.length → (B.keyGen ikm info).isSome = true) :
    (generate_random B seed).isOk = true := by
  have h32 : 32 ≤ (sha256 seed).length := by
    rw [sha256_length]
  have hs := hkg (sha256 seed) [] h32
  cases hkg2 : B.keyGen (sha256 seed) [] with
  | none => rw [hkg2] at hs; cases hs
  | some sk => simp [generate_random, hkg2, Except.isOk, Except.toBool]

/-- Witness for C9 at the empty seed and the free model. -/
theorem generate_random_total_witness :
    (generate_random blsFree []).isOk = true :=
  generate_random_total blsFree [] (fun _ _ _ => rfl)

/-- C4: `from_seed_salt` computes the commitment as `sha256(seed ‖ salt)`
(plain concatenation), derives the keypair using that commitment as
key-generation input material, signs the commitment (not the seed) under
`SOROBAN_DST`, and — given the black-box serialisation sizes — stores a
96-byte public key and a 192-byte signature. -/
theorem from_seed_salt_spec (B : BLS) (seed salt sk : List Nat)
    (hkg : B.pkKeyGen (sha256 (seed ++ salt)) [] = some sk)
    (h96 : ∀ pk, (B.pkPkSerialize pk).length = SOROBAN_G1_PUBKEY_SIZE)
    (h192 : ∀ sg, (B.pkSigSerialize sg).length = SOROBAN_G2_SIGNATURE_SIZE) :
    SamplePayload.from_seed_salt B seed salt =
      Except.ok { seed := seed, salt := salt,
                  commitment := sha256 (seed ++ salt),
                  pubkey := B.pkPkSerialize (B.pkSkToPk sk),
                  secret_key := sk,
                  signature :=
                    B.pkSigSerialize (B.pkSign sk (sha256 (seed ++ salt)) SOROBAN_DST []) } ∧
    (B.pkPkSerialize (B.pkSkToPk sk)).length = 96 ∧
    (B.pkSigSerialize (B.pkSign sk (sha256 (seed ++ salt)) SOROBAN_DST [])).length = 192 := by
  refine ⟨?_, h96 _, h192 _⟩
  simp [SamplePayload.from_seed_salt, hkg]

/-- Witness for C4 at empty seed and salt and the free model. -/
theorem from_seed_salt_spec_witness :
    blsFree.pkKeyGen (sha256 ([] ++ [])) [] = some (sha256 ([] ++ [])) ∧
    (SamplePayload.from_seed_salt blsFree [] [] =
      Except.ok { seed := [], salt := [],
                  commitment := sha256 ([] ++ []),
                  pubkey := blsFree.pkPkSerialize (blsFree.pkSkToPk (sha256 ([] ++ []))),
                  secret_key := sha256 ([] ++ []),
                  signature :=
                    blsFree.pkSigSerialize
                      (blsFree.pkSign (sha256 ([] ++ [])) (sha256 ([] ++ [])) SOROBAN_DST []) } ∧
    (blsFree.pkPkSerialize (blsFree.pkSkToPk (sha256 ([] ++ [])))).length = 96 ∧
    (blsFree.pkSigSerialize
      (blsFree.pkSign (sha256 ([] ++ [])) (sha256 ([] ++ [])) SOROBAN_DST [])).length = 192) :=
  ⟨rfl,
   from_seed_salt_spec blsFree [] [] (sha256 ([] ++ [])) rfl
     (fun _ => rfl)
     (fun _ => rfl)⟩

/-- C5: `verify_proof` checks its inputs in a fixed order with a distinct
error per failure: unparseable public key ⇒ `InvalidPublicKey` (whatever
the signature bytes are); parseable key but unparseable signature ⇒
`InvalidSignature`; both parse but the pairing check over the seed fails ⇒
`VerificationFailed`; otherwise `Ok`. -/
theorem verify_proof_error_order (B : BLS) :
    (∀ seed sigb pkb, B.pkFromBytes pkb = none →
        verify_proof B seed sigb pkb = Except.error VRFError.InvalidPublicKey) ∧
    (∀ seed sigb pkb pk, B.pkFromBytes pkb = some pk → B.sigFromBytes sigb = none →
        verify_proof B seed sigb pkb = Except.error VRFError.InvalidSignature) ∧
    (∀ seed sigb pkb pk sig, B.pkFromBytes pkb = some pk →
        B.sigFromBytes sigb = some sig →
        B.sigVerify sig seed verifyDst [] pk = false →
        verify_proof B seed sigb pkb = Except.error VRFError.VerificationFailed) ∧
    (∀ seed sigb pkb pk sig, B.pkFromBytes pkb = some pk →
        B.sigFromBytes sigb = some sig →
        B.sigVerify sig seed verifyDst [] pk = true →
        verify_proof B seed sigb pkb = Except.ok ()) := by
  refine ⟨?_, ?_, ?_, ?_⟩ <;> intros <;> simp [verify_proof, *]

/-- Witness for C5: each of the four outcomes reached at concrete inputs. -/
theorem verify_proof_error_order_witness :
    verify_proof blsStrict [] [] [0] = Except.error VRFError.InvalidPublicKey ∧
    verify_proof blsStrict [] [0] (List.replicate 96 0) =
      Except.error VRFError.InvalidSignature ∧
    verify_proof blsStrict [] (List.replicate 48 1) (List.replicate 96 0) =
      Except.error VRFError.VerificationFailed ∧
    verify_proof blsFree [] ([7] ++ [] ++ verifyDst ++ []) [7] = Except.ok () :=
  ⟨(verify_proof_error_order blsStrict).1 [] [] [0] (by decide),
   (verify_proof_error_order blsStrict).2.1 [] [0] (List.replicate 96 0)
     (List.replicate 96 0) (by decide) (by decide),
   (verify_proof_error_order blsStrict).2.2.1 [] (List.replicate 48 1)
     (List.replicate 96 0) (List.replicate 96 0) (List.replicate 48 1)
     (by decide) (by decide) (by decide),
   (verify_proof_error_order blsFree).2.2.2 [] ([7] ++ [] ++ verifyDst ++ [])
     [7] [7] ([7] ++ [] ++ verifyDst ++ []) rfl rfl (by simp [blsFree])⟩

/-- C6: `commit` is the 32-byte SHA-256 digest of the seed;
`verify_commit seed c` is true exactly when `commit seed = c`; hence
`verify_commit seed (commit seed)` holds for every seed, the empty seed
included. -/
theorem commit_verify_commit_spec :
    (∀ seed, commit seed = sha256 seed ∧ (commit seed).length = 32) ∧
    (∀ seed c, c.length = 32 → (verify_commit seed c = true ↔ commit seed = c)) ∧
    (∀ seed, verify_commit seed (commit seed) = true) ∧
    verify_commit [] (commit []) = true := by
  refine ⟨fun seed => ⟨rfl, sha256_length seed⟩, fun seed c _ => ?_, fun seed => ?_, ?_⟩
  · simp [verify_commit]
  · simp [verify_commit]
  · simp [verify_commit]

/-- Witness for C6 at the empty seed and the all-zero 32-byte commitment. -/
theorem commit_verify_commit_spec_witness :
    (List.replicate 32 0).length = 32 ∧
    (verify_commit [] (List.replicate 32 0) = true ↔ commit [] = List.replicate 32 0) :=
  ⟨by decide, commit_verify_commit_spec.2.1 [] (List.replicate 32 0) (by decide)⟩

/-- C8: when the commitment hex does not decode to exactly 32 bytes, the
`/verify-commit` handler compares against the untouched all-zero buffer:
the `valid` flag equals `verify_commit` of the decoded seed against 32
zero bytes, which can only be true when `sha256(seed)` is all zeros. -/
theorem verify_commit_handler_zero_buffer (seed_hex commitment_hex : List Char)
    (hbad : (hexDecode commitment_hex).map List.length ≠ some 32) :
    verify_commit_handler seed_hex commitment_hex =
      verify_commit ((hexDecode seed_hex).getD []) (List.replicate 32 0) ∧
    (∀ seed, verify_commit seed (List.replicate 32 0) = true ↔
      sha256 seed = List.replicate 32 0) := by
  constructor
  · cases h : hexDecode commitment_hex with
    | none => simp [verify_commit_handler, h]
    | some bytes =>
      have hlen : bytes.length ≠ 32 := by
        rw [h] at hbad
        simpa using hbad
      simp [verify_commit_handler, h, hlen]
  · intro seed
    simp [verify_commit, commit]

/-- Witness for C8: the four-character commitment hex `abcd` decodes to two
bytes, not 32. -/
theorem verify_commit_handler_zero_buffer_witness :
    (hexDecode (['a', 'b', 'c', 'd'])).map List.length ≠ some 32 ∧
    verify_commit_handler [] (['a', 'b', 'c', 'd']) =
      verify_commit ((hexDecode []).getD []) (List.replicate 32 0) :=
  ⟨by decide,
   (verify_commit_handler_zero_buffer [] (['a', 'b', 'c', 'd']) (by decide)).1⟩

/-- C10: `SamplePayload::verify` returns `Ok(())` unconditionally — it
checks nothing, so a payload whose signature, public key and commitment
have been arbitrarily replaced is still reported as verified. -/
theorem sample_payload_verify_vacuous :
    ∀ (p : SamplePayload) (sigb pkb comm : List Nat),
      SamplePayload.verify p = Except.ok () ∧
      SamplePayload.verify
        { p with signature := sigb, pubkey := pkb, commitment := comm } =
        Except.ok () :=
  fun _ _ _ _ => ⟨rfl, rfl⟩

end NebulaVRF
